import Mathlib

/-!
# Smart-classroom gateway (`server.js`)

A shallow embedding of the Express application in `server.js`:

* JavaScript values, property access and `String.prototype.trim`;
* JavaScript Numbers as the rationals they denote, with IEEE 754 binary64
  rounding of every arithmetic result, and `Number.prototype.toFixed`;
* the request handlers as programs of a state-and-exception monad whose
  state records the server state and the effects of one request
  (`Math.random()` draws, upstream calls, `console.error`, responses sent);
* the middleware chain `limiter` → `express.static` → routes.

Strings are Lean strings, sequences of Unicode scalar values, where JavaScript
has sequences of UTF-16 code units: lone surrogates are not represented, and
the `length` and the indices of a string count scalar values.  Every whitespace
character recognised by `trim` is a single code unit and a single scalar value.
-/

namespace SmartClassroom

/-! ## JavaScript values -/

/-- JavaScript data values: what `JSON.parse` can produce, and `undefined`.
Function values are not data and are not represented. -/
inductive JsVal where
  | undefined : JsVal
  | null : JsVal
  | bool (b : Bool) : JsVal
  | num (q : ℚ) : JsVal
  | str (s : String) : JsVal
  | arr (items : List JsVal) : JsVal
  | obj (fields : List (String × JsVal)) : JsVal

/-- What a `throw` or a rejected promise carries. -/
inductive Thrown where
  /-- A `TypeError` raised by the language itself; `what` names the member involved. -/
  | typeError (what : String) : Thrown
  /-- The reason of a rejected upstream promise. -/
  | rejection (reason : JsVal) : Thrown

/-- Array-index reading of a property key: the canonical decimal strings. -/
def indexOfKey (key : String) : Option ℕ :=
  let i := key.data.foldl (fun acc ch => 10 * acc + (ch.toNat - 48)) 0
  if key.data.all Char.isDigit ∧ Nat.repr i = key then some i else none

/-- The `[[Get]]` of data members: fields of objects, elements and `length`
of arrays and strings; every other key gives `undefined`.  (Inherited methods
are functions, not data; the one the handler calls is `callTrim`.) -/
def ownProp (v : JsVal) (key : String) : JsVal :=
  match v with
  | .obj fields => (fields.lookup key).getD .undefined
  | .arr items =>
    if key = "length" then .num items.length
    else match indexOfKey key with
      | some i => items.getD i .undefined
      | none => .undefined
  | .str s =>
    if key = "length" then .num s.length
    else match indexOfKey key with
      | some i => match s.data.get? i with
        | some c => .str (String.singleton c)
        | none => .undefined
      | none => .undefined
  | _ => .undefined

/-- Property read `v.key` / `v[key]`: a `TypeError` on `undefined` and `null`. -/
def getProp (v : JsVal) (key : String) : Except Thrown JsVal :=
  match v with
  | .undefined => .error (.typeError key)
  | .null => .error (.typeError key)
  | _ => .ok (ownProp v key)

/-- The characters `String.prototype.trim` strips: ECMAScript WhiteSpace
(TAB, VT, FF, ZWNBSP and the space separators) and LineTerminator. -/
def isJsWhitespace (c : Char) : Bool :=
  let n := c.toNat
  n = 0x09 || n = 0x0A || n = 0x0B || n = 0x0C || n = 0x0D || n = 0x20 ||
  n = 0xA0 || n = 0x1680 || (0x2000 ≤ n && n ≤ 0x200A) || n = 0x2028 ||
  n = 0x2029 || n = 0x202F || n = 0x205F || n = 0x3000 || n = 0xFEFF

/-- Strip the leading and the trailing whitespace of a character list. -/
def trimChars (cs : List Char) : List Char :=
  ((cs.dropWhile isJsWhitespace).reverse.dropWhile isJsWhitespace).reverse

/-- `String.prototype.trim`. -/
def jsTrim (s : String) : String :=
  String.mk (trimChars s.data)

/-- Method call `v.trim()`: defined on strings only.  On `undefined`/`null`
the member read throws; on every other value `trim` is not a function. -/
def callTrim (v : JsVal) : Except Thrown String :=
  match v with
  | .str s => .ok (jsTrim s)
  | _ => .error (.typeError "trim")

/-! ## JavaScript Numbers -/

/-- Nearest integer, ties to the even one. -/
def roundTiesEven (x : ℚ) : ℤ :=
  let f := ⌊x⌋
  let d := x - f
  if d < 1/2 then f
  else if 1/2 < d then f + 1
  else if f % 2 = 0 then f else f + 1

/-- Number of halvings that bring `n` below two, within `fuel` steps. -/
def halvings : ℕ → ℕ → ℕ
  | 0, _ => 0
  | fuel + 1, n => if n < 2 then 0 else halvings fuel (n / 2) + 1

/-- The binary logarithm `⌊log₂ n⌋` of a natural number (`0` for `n = 0`). -/
def floorLog2 (n : ℕ) : ℕ := halvings n n

/-- The binary exponent `⌊log₂ |q|⌋` of a non-zero rational. -/
def binade (q : ℚ) : ℤ :=
  let e : ℤ := (floorLog2 q.num.natAbs : ℤ) - (floorLog2 q.den : ℤ)
  if (2:ℚ) ^ e ≤ |q| then e else e - 1

/-- The binary64 value nearest to `q` (roundTiesToEven, 53-bit significand,
gradual underflow).  Overflow to infinity is not represented: every Number of
this program is below `2 ^ 10`. -/
def fl (q : ℚ) : ℚ :=
  if q = 0 then 0
  else
    let u : ℚ := (2:ℚ) ^ (max (binade q) (-1022) - 52)
    (roundTiesEven (q / u) : ℚ) * u

/-- Number addition `a + b`. -/
def jsAdd (a b : ℚ) : ℚ := fl (a + b)

/-- Number multiplication `a * b`. -/
def jsMul (a b : ℚ) : ℚ := fl (a * b)

/-- The integer `n` of `toFixed`: `n / 10 ^ f` is as close to `x` as possible,
the larger `n` on a tie (for `0 ≤ x`). -/
def toFixedN (x : ℚ) (f : ℕ) : ℕ := ⌊x * 10 ^ f + 1/2⌋₊

/-- The digits of `n` with the decimal point `f` places from the right,
left-padded with zeros to `f + 1` digits. -/
def fixedDigits (n f : ℕ) : String :=
  let m := Nat.repr n
  if f = 0 then m
  else
    let m := if m.length ≤ f then String.mk (List.replicate (f + 1 - m.length) '0') ++ m else m
    let k := m.length
    String.mk (m.data.take (k - f)) ++ "." ++ String.mk (m.data.drop (k - f))

/-- `Number.prototype.toFixed` for `|x| < 10 ^ 21`. -/
def toFixed (x : ℚ) (f : ℕ) : String :=
  if x < 0 then "-" ++ fixedDigits (toFixedN (-x) f) f
  else fixedDigits (toFixedN x f) f

/-! ## HTTP and the upstream API -/

/-- Body of an HTTP response: `res.json(v)` or `res.send(text)`. -/
inductive Body where
  | json (v : JsVal) : Body
  | text (s : String) : Body

/-- An HTTP response as the client sees it. -/
structure HttpResponse where
  status : ℕ
  body : Body

/-- A GET request: the client address, the arrival time in milliseconds and
the path. -/
structure Request where
  ip : String
  now : ℕ
  path : String

/-- One element of `messages`. -/
structure ChatMessage where
  role : String
  content : String

/-- The argument of `openai.createChatCompletion`. -/
structure ChatCompletionRequest where
  model : String
  messages : List ChatMessage
  temperature : ℚ

/-- How the promise returned by `openai.createChatCompletion` settles.  (A
promise that never settles is not represented.) -/
inductive Outcome where
  | resolved (response : JsVal) : Outcome
  | rejected (reason : JsVal) : Outcome

/-- The object built by `new Configuration(...)`. -/
structure Configuration where
  apiKey : Option String

/-- Options passed to `rateLimit` (lines 23-27). -/
structure RateLimitOptions where
  windowMs : ℕ
  max : ℕ
  message : String

/-- The limiter's in-process counters: the index of the current window and the
hits of every client key in it. -/
structure LimiterStore where
  window : ℕ
  hits : String → ℕ

/-- The module-level state of `server.js`, made explicit. -/
structure ServerState where
  limiter : LimiterStore
  configuration : Configuration
  PORT : JsVal

/-- What one request observes from outside the process: the successive results
of `Math.random()`, the behaviour of the upstream API, the files under
`public/` and the answer Express gives by default to a path that nothing
handles. -/
structure Ctx where
  random : ℕ → ℚ
  upstream : Configuration → ChatCompletionRequest → Outcome
  publicFile : String → Option String
  notFound : String → HttpResponse

/-- The state threaded through the handling of one request. -/
structure Run where
  server : ServerState
  drawn : ℕ
  calls : List ChatCompletionRequest
  errors : List (String × Thrown)
  statusCode : ℕ
  sent : List HttpResponse

/-- Programs run for a request: state passing with exceptions. -/
def Handler (α : Type) : Type := Ctx → Run → Except Thrown α × Run

instance Handler.instMonad : Monad Handler where
  pure a := fun _ w => (.ok a, w)
  bind m f := fun c w =>
    match m c w with
    | (.ok a, w1) => f a c w1
    | (.error e, w1) => (.error e, w1)

instance Handler.instMonadExcept : MonadExcept Thrown Handler where
  throw e := fun _ w => (.error e, w)
  tryCatch m h := fun c w =>
    match m c w with
    | (.ok a, w1) => (.ok a, w1)
    | (.error e, w1) => h e c w1

/-- Run a pure fallible step inside a handler. -/
def liftExcept {α : Type} (x : Except Thrown α) : Handler α :=
  fun _ w => (x, w)

/-- `Math.random()`: the next draw. -/
def mathRandom : Handler ℚ :=
  fun c w => (.ok (c.random w.drawn), { w with drawn := w.drawn + 1 })

/-- `await openai.createChatCompletion(request)`: one upstream call; a
rejection is thrown at the `await`. -/
def createChatCompletion (request : ChatCompletionRequest) : Handler JsVal :=
  fun c w =>
    let w1 := { w with calls := w.calls ++ [request] }
    match c.upstream w.server.configuration request with
    | .resolved response => (.ok response, w1)
    | .rejected reason => (.error (.rejection reason), w1)

/-- `console.error(label, error)`. -/
def consoleError (label : String) (error : Thrown) : Handler Unit :=
  fun _ w => (.ok (), { w with errors := w.errors ++ [(label, error)] })

/-- `res.status(code)`. -/
def resStatus (code : ℕ) : Handler Unit :=
  fun _ w => (.ok (), { w with statusCode := code })

/-- `res.json(v)`: send `v` as JSON with the current status code. -/
def resJson (v : JsVal) : Handler Unit :=
  fun _ w => (.ok (), { w with sent := w.sent ++ [{ status := w.statusCode, body := .json v }] })

/-- `res.send(text)`: send a text body with the current status code. -/
def resSend (text : String) : Handler Unit :=
  fun _ w => (.ok (), { w with sent := w.sent ++ [{ status := w.statusCode, body := .text text }] })

/-- The state in which the handling of a request starts. -/
def Run.start (s : ServerState) : Run :=
  { server := s, drawn := 0, calls := [], errors := [], statusCode := 200, sent := [] }

/-- Handle one request: run `h` from server state `s`. -/
def Handler.run {α : Type} (h : Handler α) (c : Ctx) (s : ServerState) : Except Thrown α × Run :=
  h c (Run.start s)

/-! ## The routes of `server.js` -/

/-- The reading object both routes build. -/
structure SensorData where
  temperature : String
  humidity : String
  light : String
  humanDetect : String
  deriving DecidableEq

/-- The reading as the JavaScript object literal it is. -/
def SensorData.toJs (d : SensorData) : JsVal :=
  .obj [("temperature", .str d.temperature), ("humidity", .str d.humidity),
    ("light", .str d.light), ("humanDetect", .str d.humanDetect)]

/-- The object literal `data` of `GET /api/sensors` (lines 42-47). -/
def data : Handler SensorData := do
  let temperature := toFixed (jsAdd 20 (jsMul (← mathRandom) 5)) 1
  let humidity := toFixed (jsAdd 40 (jsMul (← mathRandom) 20)) 1
  let light := toFixed (jsAdd 300 (jsMul (← mathRandom) 100)) 0
  let humanDetect := if (← mathRandom) > 1/2 then "有人" else "无人"
  pure { temperature := temperature, humidity := humidity, light := light,
         humanDetect := humanDetect }

/-- Handler of `app.get('/api/sensors', ...)` (lines 41-49). -/
def sensorsHandler : Handler Unit := do
  let data ← data
  resJson data.toJs

/-- The object literal `sensorData` of `GET /api/ai-suggestion` (lines 56-61). -/
def sensorData : Handler SensorData := do
  let temperature := toFixed (jsAdd 20 (jsMul (← mathRandom) 5)) 1
  let humidity := toFixed (jsAdd 40 (jsMul (← mathRandom) 20)) 1
  let light := toFixed (jsAdd 300 (jsMul (← mathRandom) 100)) 0
  let humanDetect := if (← mathRandom) > 1/2 then "有人" else "无人"
  pure { temperature := temperature, humidity := humidity, light := light,
         humanDetect := humanDetect }

/-- The template literal `prompt` (lines 65-73). -/
def prompt (sensorData : SensorData) : String :=
  s!"\n    你是一个智能教室节能顾问。当前教室传感器数据如下：\n    - 温度: {sensorData.temperature} °C\n    - 湿度: {sensorData.humidity} %\n    - 光照强度: {sensorData.light} lux\n    - 是否有人: {sensorData.humanDetect}\n\n    请根据以上数据，从节能角度给出几条具体建议，帮助减少能源浪费，并保持教室舒适度。建议要简洁易懂。\n    "

/-- The expression `response.data.choices[0].message.content.trim()` of line 86. -/
def aiSuggestion (response : JsVal) : Except Thrown String := do
  let data ← getProp response "data"
  let choices ← getProp data "choices"
  let choice ← getProp choices "0"
  let message ← getProp choice "message"
  let content ← getProp message "content"
  callTrim content

/-- Handler of `app.get('/api/ai-suggestion', ...)` (lines 52-95). -/
def aiSuggestionHandler : Handler Unit := do
  try
    let sensorData ← sensorData
    let prompt := prompt sensorData
    let response ← createChatCompletion
      { model := "gpt-3.5-turbo",
        messages := [{ role := "user", content := prompt }],
        temperature := fl (7/10) }
    let aiSuggestion ← liftExcept (aiSuggestion response)
    resJson (.obj [("suggestion", .str aiSuggestion)])
  catch error =>
    consoleError "调用OpenAI出错:" error
    resStatus 500
    resJson (.obj [("error", .str "AI生成建议失败，请稍后重试")])

/-! ## Middleware -/

/-- The options object of line 23-27. -/
def limiterOptions : RateLimitOptions :=
  { windowMs := 15 * 60 * 1000, max := 100, message := "请求过于频繁，请稍后再试" }

/-- Modelled from the spec: the counter of the limiter.  Fixed windows of
`windowMs` milliseconds; the hits of a client address are counted within the
current window and start again at a window boundary.  Returns the count of the
client, this request included. -/
def countHit (options : RateLimitOptions) (req : Request) : Handler ℕ :=
  fun _ w =>
    let current := req.now / options.windowMs
    let hits : String → ℕ :=
      if w.server.limiter.window = current then w.server.limiter.hits else fun _ => 0
    let count := hits req.ip + 1
    let store : LimiterStore :=
      { window := current, hits := fun key => if key = req.ip then count else hits key }
    (.ok count, { w with server := { w.server with limiter := store } })

/-- Modelled from the spec: the middleware returned by `rateLimit(options)`
(package `express-rate-limit`, not part of the repository).  Every request is
counted; a request whose count exceeds `max` is answered with `message`
(status 429, the 4xx of the package) and not passed on.  Returns whether
`next()` is called. -/
def rateLimit (options : RateLimitOptions) (req : Request) : Handler Bool := do
  let count ← countHit options req
  if count > options.max then
    resStatus 429
    resSend options.message
    pure false
  else
    pure true

/-- The middleware `limiter` (line 23). -/
def limiter : Request → Handler Bool := rateLimit limiterOptions

/-- Modelled from the spec: `express.static(public)`, which serves a bundled
asset with status 200 and lets every other request fall through.  Returns
whether `next()` is called. -/
def expressStatic (req : Request) : Handler Bool :=
  fun c w =>
    match c.publicFile req.path with
    | some content =>
      (.ok false, { w with sent := w.sent ++ [{ status := w.statusCode, body := .text content }] })
    | none => (.ok true, w)

/-- The default handling of Express for a request that no middleware and no
route answers. -/
def defaultNotFound (req : Request) : Handler Unit :=
  fun c w => (.ok (), { w with sent := w.sent ++ [c.notFound req.path] })

/-- The application: the middleware in the order of registration (`limiter`,
line 28; `express.static`, line 31), then the two routes, then the default
not-found handling of Express.  `helmet()` only adds response headers and
`express.json()` only reads request bodies; neither is represented.  The
routes are matched on the path as written in `server.js`. -/
def app (req : Request) : Handler Unit := do
  if ← limiter req then
    if ← expressStatic req then
      if req.path = "/api/sensors" then sensorsHandler
      else if req.path = "/api/ai-suggestion" then aiSuggestionHandler
      else defaultNotFound req

/-- Server state after start-up: empty counters, the API key and the port
from the process environment (`process.env.PORT || 3000`). -/
def startup (env : String → Option String) : ServerState :=
  { limiter := { window := 0, hits := fun _ => 0 },
    configuration := { apiKey := env "OPENAI_API_KEY" },
    PORT := match env "PORT" with
      | some p => if p = "" then .num 3000 else .str p
      | none => .num 3000 }

/-- Serve a sequence of requests, each with its own surroundings; the server
state is carried from one request to the next. -/
def serveAll (s : ServerState) : List (Request × Ctx) → ServerState
  | [] => s
  | (req, c) :: rest => serveAll ((app req).run c s).2.server rest

/-! ## Vocabulary of the specification -/

/-- The reading as a function of four draws: `20 + 5r` and `40 + 20r` rounded
to one decimal, `300 + 100r` rounded to zero decimals, and the occupancy label
of a draw above one half. -/
def specReading (r1 r2 r3 r4 : ℚ) : SensorData :=
  { temperature := toFixed (fl (20 + fl (r1 * 5))) 1,
    humidity := toFixed (fl (40 + fl (r2 * 20))) 1,
    light := toFixed (fl (300 + fl (r3 * 100))) 0,
    humanDetect := if r4 > 1/2 then "有人" else "无人" }

/-- Value of a string of decimal digits; `none` unless it is one. -/
def digitsValue (cs : List Char) : Option ℕ :=
  if cs ≠ [] ∧ cs.all Char.isDigit then
    some (cs.foldl (fun acc ch => 10 * acc + (ch.toNat - 48)) 0)
  else none

/-- The number an unsigned decimal literal `ddd` or `ddd.ddd` denotes. -/
def decimalValue (s : String) : Option ℚ :=
  match s.data.span (fun ch => ch != '.') with
  | (whole, []) => (digitsValue whole).map fun n => (n : ℚ)
  | (whole, _ :: frac) =>
    match digitsValue whole, digitsValue frac with
    | some n, some m => some ((n : ℚ) + (m : ℚ) / 10 ^ frac.length)
    | _, _ => none

/-- Member `key` of an object; `none` when absent or when `v` is no object. -/
def field? (v : JsVal) (key : String) : Option JsVal :=
  match v with
  | .obj fields => fields.lookup key
  | _ => none

/-- A member that is missing, `null` or `undefined`. -/
def Absent (m : Option JsVal) : Prop :=
  m = none ∨ m = some .null ∨ m = some .undefined

/-- The first choice of `response` carries a message with text content `t`. -/
def FirstChoiceText (response : JsVal) (t : String) : Prop :=
  ∃ data choice rest message,
    field? response "data" = some data ∧
    field? data "choices" = some (.arr (choice :: rest)) ∧
    field? choice "message" = some message ∧
    field? message "content" = some (.str t)

/-- The failing upstream outcomes: a rejection, or a payload with no data, no
choices, an empty choices list, a first choice without message, or a message
whose content is not a string. -/
inductive FailingOutcome : Outcome → Prop where
  | rejects (reason : JsVal) : FailingOutcome (.rejected reason)
  | noData (response : JsVal) (h : Absent (field? response "data")) :
      FailingOutcome (.resolved response)
  | noChoices (response data : JsVal) (hd : field? response "data" = some data)
      (h : Absent (field? data "choices")) : FailingOutcome (.resolved response)
  | emptyChoices (response data : JsVal) (hd : field? response "data" = some data)
      (h : field? data "choices" = some (.arr [])) : FailingOutcome (.resolved response)
  | noMessage (response data choice : JsVal) (rest : List JsVal)
      (hd : field? response "data" = some data)
      (hc : field? data "choices" = some (.arr (choice :: rest)))
      (h : Absent (field? choice "message")) : FailingOutcome (.resolved response)
  | contentNotString (response data choice message : JsVal) (rest : List JsVal)
      (hd : field? response "data" = some data)
      (hc : field? data "choices" = some (.arr (choice :: rest)))
      (hm : field? choice "message" = some message)
      (h : ∀ t, field? message "content" ≠ some (.str t)) : FailingOutcome (.resolved response)

/-- The try block of the suggestion handler throws on outcome `o`: the promise
rejects, or line 86 throws on the payload. -/
def TryThrows (o : Outcome) : Prop :=
  match o with
  | .rejected _ => True
  | .resolved response => ∃ e, aiSuggestion response = .error e

/-- The four places of the prompt template. -/
inductive Place where
  | temperature | humidity | light | humanDetect
  deriving DecidableEq

/-- A piece of a template: fixed text or a place to fill. -/
inductive Piece where
  | fixed (text : String) : Piece
  | place (p : Place) : Piece

/-- The field of the reading that goes to a place. -/
def Place.value (d : SensorData) : Place → String
  | .temperature => d.temperature
  | .humidity => d.humidity
  | .light => d.light
  | .humanDetect => d.humanDetect

/-- Substitute the reading into a template. -/
def fillTemplate (d : SensorData) : List Piece → String
  | [] => ""
  | .fixed text :: rest => text ++ fillTemplate d rest
  | .place p :: rest => p.value d ++ fillTemplate d rest

/-- The places of a template, in order of occurrence. -/
def places : List Piece → List Place
  | [] => []
  | .fixed _ :: rest => places rest
  | .place p :: rest => p :: places rest

/-- The fixed multi-line template: five fixed texts around four labelled places. -/
def promptTemplate : List Piece :=
  [.fixed "\n    你是一个智能教室节能顾问。当前教室传感器数据如下：\n    - 温度: ",
   .place .temperature,
   .fixed " °C\n    - 湿度: ",
   .place .humidity,
   .fixed " %\n    - 光照强度: ",
   .place .light,
   .fixed " lux\n    - 是否有人: ",
   .place .humanDetect,
   .fixed "\n\n    请根据以上数据，从节能角度给出几条具体建议，帮助减少能源浪费，并保持教室舒适度。建议要简洁易懂。\n    "]

/-- Hits of client `ip` counted in window `w` by a server state. -/
def hitsIn (s : ServerState) (w : ℕ) (ip : String) : ℕ :=
  if s.limiter.window = w then s.limiter.hits ip else 0

/-! ## Sample inputs -/

/-- Surroundings in which every draw is `r`, every upstream call settles as
`o` and `public/` holds no file. -/
def ctxOf (r : ℚ) (o : Outcome) : Ctx :=
  { random := fun _ => r, upstream := fun _ _ => o, publicFile := fun _ => none,
    notFound := fun path => { status := 404, body := .text ("Cannot GET " ++ path) } }

/-- A server started with an empty environment. -/
def idle : ServerState := startup fun _ => none

/-- A well-formed upstream response whose text has whitespace around it. -/
def lightsResponse : JsVal :=
  .obj [("data", .obj [("choices", .arr [.obj [("message",
    .obj [("role", .str "assistant"),
          ("content", .str "  Turn off lights when unoccupied.\n")])]])])]

/-- An upstream response with an empty list of choices. -/
def emptyResponse : JsVal :=
  .obj [("data", .obj [("choices", .arr [])])]

/-- A request for the sensor route from one fixed client. -/
def sensorsRequest (now : ℕ) : Request :=
  { ip := "10.0.0.7", now := now, path := "/api/sensors" }

/-! ## Numbers: rounding lemmas -/

theorem roundTiesEven_le (x : ℚ) (N : ℤ) (h : x ≤ N) : roundTiesEven x ≤ N := by
  have hf : ⌊x⌋ ≤ N := by
    have := Int.floor_le x
    exact_mod_cast (this.trans h)
  unfold roundTiesEven
  simp only
  rcases lt_or_eq_of_le hf with hlt | heq
  · split_ifs <;> omega
  · have hx : x = N := le_antisymm h (by rw [← heq]; exact Int.floor_le x)
    have hd : x - (⌊x⌋ : ℚ) < 1/2 := by rw [heq, hx]; norm_num
    rw [if_pos hd]; exact hf

theorem le_roundTiesEven (x : ℚ) (N : ℤ) (h : (N : ℚ) ≤ x) : N ≤ roundTiesEven x := by
  have hf : N ≤ ⌊x⌋ := Int.le_floor.mpr h
  unfold roundTiesEven
  simp only
  split_ifs <;> omega

/-- Rounding to the nearest integer moves a number by one half at most. -/
theorem roundTiesEven_near (x : ℚ) : |(roundTiesEven x : ℚ) - x| ≤ 1 / 2 := by
  have h1 : (⌊x⌋ : ℚ) ≤ x := Int.floor_le x
  have h2 : x < ⌊x⌋ + 1 := Int.lt_floor_add_one x
  unfold roundTiesEven
  simp only
  rw [abs_le]
  split_ifs with ha hb hc
  · constructor <;> linarith
  · push_cast; constructor <;> linarith
  · constructor <;> linarith
  · push_cast; constructor <;> linarith

theorem halvings_spec (fuel n : ℕ) (hn : n ≠ 0) (hf : n ≤ fuel) :
    2 ^ halvings fuel n ≤ n ∧ n < 2 ^ (halvings fuel n + 1) := by
  induction fuel generalizing n with
  | zero => omega
  | succ fuel ih =>
    unfold halvings
    split_ifs with h2
    · simp; omega
    · have h := ih (n / 2) (by omega) (by omega)
      rw [pow_succ, pow_succ 2 (halvings fuel (n / 2) + 1)]
      omega

theorem floorLog2_spec (n : ℕ) (hn : n ≠ 0) :
    2 ^ floorLog2 n ≤ n ∧ n < 2 ^ (floorLog2 n + 1) :=
  halvings_spec n n hn le_rfl

theorem binade_spec (q : ℚ) (hq : q ≠ 0) :
    (2:ℚ) ^ binade q ≤ |q| ∧ |q| < (2:ℚ) ^ (binade q + 1) := by
  have hnum : q.num.natAbs ≠ 0 := by
    simpa [Int.natAbs_eq_zero] using (Rat.num_ne_zero.mpr hq)
  have hden : q.den ≠ 0 := q.den_nz
  obtain ⟨ha1, ha2⟩ := floorLog2_spec _ hnum
  obtain ⟨hb1, hb2⟩ := floorLog2_spec _ hden
  have habs : |q| = (q.num.natAbs : ℚ) / (q.den : ℚ) := by
    conv_lhs => rw [← Rat.num_div_den q]
    rw [abs_div, Nat.abs_cast]
    congr 1
    rw [Nat.cast_natAbs, Int.cast_abs]
  set a := q.num.natAbs
  set b := q.den
  set la := floorLog2 a
  set lb := floorLog2 b
  have hbpos : (0:ℚ) < b := by exact_mod_cast Nat.pos_of_ne_zero hden
  have ha1q : (2:ℚ) ^ la ≤ a := by exact_mod_cast ha1
  have ha2q : (a:ℚ) < 2 ^ (la + 1) := by exact_mod_cast ha2
  have hb1q : (2:ℚ) ^ lb ≤ b := by exact_mod_cast hb1
  have hb2q : (b:ℚ) < 2 ^ (lb + 1) := by exact_mod_cast hb2
  have he : (2:ℚ) ^ ((la:ℤ) - (lb:ℤ)) = 2 ^ la / 2 ^ lb := by
    rw [zpow_sub₀ (by norm_num), zpow_natCast, zpow_natCast]
  have he1 : (2:ℚ) ^ ((la:ℤ) - (lb:ℤ) + 1) = 2 ^ (la + 1) / 2 ^ lb := by
    rw [zpow_add₀ (by norm_num), he, zpow_one, pow_succ]; ring
  have he2 : (2:ℚ) ^ ((la:ℤ) - (lb:ℤ) - 1) = 2 ^ la / 2 ^ (lb + 1) := by
    rw [zpow_sub₀ (by norm_num), he, zpow_one, pow_succ, div_div]
  have hpl : (0:ℚ) < 2 ^ lb := by positivity
  have hpl1 : (0:ℚ) < 2 ^ (lb + 1) := by positivity
  unfold binade
  simp only
  split_ifs with h
  · refine ⟨h, ?_⟩
    rw [he1, habs, div_lt_div_iff₀ hbpos hpl]
    calc (a:ℚ) * 2 ^ lb ≤ a * b := by gcongr
      _ < 2 ^ (la + 1) * b := by gcongr
  · refine ⟨?_, ?_⟩
    · rw [he2, habs, div_le_div_iff₀ hpl1 hbpos]
      calc (2:ℚ) ^ la * b ≤ a * b := by gcongr
        _ ≤ a * 2 ^ (lb + 1) := by gcongr
    · rw [sub_add_cancel]; exact lt_of_not_le h

theorem binade_lt (q : ℚ) (hq : q ≠ 0) (k : ℤ) (h : |q| < (2:ℚ) ^ k) : binade q < k := by
  have h1 := (binade_spec q hq).1
  have h2 : (2:ℚ) ^ binade q < (2:ℚ) ^ k := lt_of_le_of_lt h1 h
  exact (zpow_lt_zpow_iff_right₀ (by norm_num : (1:ℚ) < 2)).mp h2

/-- Rounding to binary64 never crosses an integer: integers below `2 ^ 53` are
binary64 values and rounding is monotone. -/
theorem fl_bounds (q : ℚ) (A B : ℤ) (hA : (A:ℚ) ≤ q) (hB : q ≤ B) (hq : |q| < 2 ^ 53) :
    (A:ℚ) ≤ fl q ∧ fl q ≤ B := by
  unfold fl
  split_ifs with h0
  · subst h0; exact ⟨hA, hB⟩
  · simp only
    have hk : max (binade q) (-1022) - 52 ≤ 0 := by
      have := binade_lt q h0 53 (by exact_mod_cast hq)
      omega
    obtain ⟨n, hn⟩ : ∃ n : ℕ, max (binade q) (-1022) - 52 = -(n:ℤ) :=
      ⟨(-(max (binade q) (-1022) - 52)).toNat, by omega⟩
    rw [hn, zpow_neg, zpow_natCast]
    have hp : (0:ℚ) < 2 ^ n := by positivity
    have e1 : q / ((2:ℚ) ^ n)⁻¹ = q * 2 ^ n := by field_simp
    rw [e1]
    have h1 : roundTiesEven (q * 2 ^ n) ≤ B * 2 ^ n :=
      roundTiesEven_le _ _ (by push_cast; gcongr)
    have h2 : A * 2 ^ n ≤ roundTiesEven (q * 2 ^ n) :=
      le_roundTiesEven _ _ (by push_cast; gcongr)
    have h1q : (roundTiesEven (q * 2 ^ n) : ℚ) ≤ B * 2 ^ n := by exact_mod_cast h1
    have h2q : (A:ℚ) * 2 ^ n ≤ roundTiesEven (q * 2 ^ n) := by exact_mod_cast h2
    constructor
    · rw [le_mul_inv_iff₀ hp]; exact h2q
    · rw [mul_inv_le_iff₀ hp]; exact h1q

/-- Integers below `2 ^ 53` are binary64 values. -/
theorem fl_intCast (N : ℤ) (h : |(N:ℚ)| < 2 ^ 53) : fl (N:ℚ) = N :=
  le_antisymm (fl_bounds N N N le_rfl le_rfl h).2 (fl_bounds N N N le_rfl le_rfl h).1

/-- Rounding to binary64 moves a number by half a unit in the last place at most. -/
theorem fl_near (q : ℚ) : |fl q - q| ≤ (2:ℚ) ^ (max (binade q) (-1022) - 52) / 2 := by
  unfold fl
  split_ifs with h0
  · subst h0; simp; positivity
  · simp only
    set u : ℚ := (2:ℚ) ^ (max (binade q) (-1022) - 52) with hu
    have hpos : 0 < u := by rw [hu]; positivity
    have h := roundTiesEven_near (q / u)
    have e : (roundTiesEven (q / u) : ℚ) * u - q = ((roundTiesEven (q / u) : ℚ) - q / u) * u := by
      field_simp
    rw [e, abs_mul, abs_of_pos hpos]
    calc |(roundTiesEven (q / u) : ℚ) - q / u| * u ≤ 1 / 2 * u := by gcongr
      _ = u / 2 := by ring

/-- The scaled sum `a + fl (r * b)` of a draw stays between `a` and `a + b`. -/
theorem scaled_draw_bounds (r : ℚ) (a b : ℕ) (h0 : 0 ≤ r) (h1 : r < 1) (hab : a + b ≤ 1000) :
    (a:ℚ) ≤ fl (a + fl (r * b)) ∧ fl (a + fl (r * b)) ≤ (a:ℚ) + b := by
  have hb0 : (0:ℚ) ≤ b := Nat.cast_nonneg b
  have ha0 : (0:ℚ) ≤ a := Nat.cast_nonneg a
  have hab' : (a:ℚ) + b ≤ 1000 := by exact_mod_cast hab
  have hp0 : 0 ≤ r * b := mul_nonneg h0 hb0
  have hp1 : r * b ≤ b := by nlinarith
  have hin := fl_bounds (r * b) 0 b (by simpa using hp0) (by simpa using hp1)
    (by rw [abs_of_nonneg hp0]; norm_num; linarith)
  have hs0 : (a:ℚ) ≤ a + fl (r * b) := by have := hin.1; simp at this; linarith
  have hs1 : (a:ℚ) + fl (r * b) ≤ a + b := by have := hin.2; simp at this; linarith
  have := fl_bounds (a + fl (r * b)) a (a + b) (by simpa using hs0) (by simpa using hs1)
    (by rw [abs_of_nonneg (ha0.trans hs0)]; norm_num; linarith)
  simpa using this

theorem toFixedN_bounds (x : ℚ) (f : ℕ) (lo hi : ℕ) (h0 : (lo:ℚ) ≤ x * 10 ^ f)
    (h1 : x * 10 ^ f ≤ hi) : lo ≤ toFixedN x f ∧ toFixedN x f ≤ hi := by
  unfold toFixedN
  constructor
  · apply Nat.le_floor; linarith
  · have : ⌊x * 10 ^ f + 1/2⌋₊ < hi + 1 := by
      rw [Nat.floor_lt (by linarith [(Nat.cast_nonneg lo : (0:ℚ) ≤ (lo:ℚ))])]
      push_cast; linarith
    omega

theorem toFixedN_near (x : ℚ) (f : ℕ) (h0 : 0 ≤ x) :
    |(toFixedN x f : ℚ) / 10 ^ f - x| ≤ 1 / (2 * 10 ^ f) := by
  have hp : (0:ℚ) < 10 ^ f := by positivity
  have hy : (0:ℚ) ≤ x * 10 ^ f + 1/2 := by positivity
  have h1 : (toFixedN x f : ℚ) ≤ x * 10 ^ f + 1/2 := Nat.floor_le hy
  have h2 : x * 10 ^ f + 1/2 < toFixedN x f + 1 := Nat.lt_floor_add_one _
  rw [abs_le]
  constructor
  · rw [le_sub_iff_add_le, le_div_iff₀ hp]
    have : (-(1 / (2 * 10 ^ f)) + x) * 10 ^ f = x * 10 ^ f - 1/2 := by field_simp; ring
    rw [this]; linarith
  · rw [sub_le_iff_le_add, div_le_iff₀ hp]
    have : (1 / (2 * 10 ^ f) + x) * 10 ^ f = x * 10 ^ f + 1/2 := by field_simp; ring
    rw [this]; linarith

theorem toFixed_of_nonneg (x : ℚ) (f : ℕ) (h0 : 0 ≤ x) :
    toFixed x f = fixedDigits (toFixedN x f) f := by
  unfold toFixed
  rw [if_neg (not_lt.mpr h0)]

theorem decimalValue_fixed_one : ∀ n < 601, 200 ≤ n →
    decimalValue (fixedDigits n 1) = some ((n:ℚ) / 10) := by decide!

theorem decimalValue_fixed_zero : ∀ n < 401, 300 ≤ n →
    decimalValue (fixedDigits n 0) = some (n:ℚ) := by decide!

/-! ## Values: property access and trimming -/

theorem getProp_of_field {v : JsVal} {key : String} {x : JsVal} (h : field? v key = some x) :
    getProp v key = .ok x := by
  cases v <;> simp [field?] at h
  simp [getProp, ownProp, h]

theorem getProp_arr_zero (choice : JsVal) (rest : List JsVal) :
    getProp (.arr (choice :: rest)) "0" = .ok choice := by
  have h1 : indexOfKey "0" = some 0 := by decide
  have h2 : ¬ ("0" = "length") := by decide
  simp [getProp, ownProp, h1, h2]

theorem getProp_arr_nil : getProp (.arr []) "0" = .ok .undefined := by
  have h1 : indexOfKey "0" = some 0 := by decide
  have h2 : ¬ ("0" = "length") := by decide
  simp [getProp, ownProp, h1, h2]

theorem getProp_undefined (key : String) :
    getProp .undefined key = .error (.typeError key) := rfl

theorem getProp_null (key : String) :
    getProp .null key = .error (.typeError key) := rfl

/-- A member that is `Absent` reads as `undefined` or `null`, unless the read throws. -/
theorem getProp_absent {v : JsVal} {key : String} (hk1 : ¬ (key = "length"))
    (hk2 : indexOfKey key = none) (h : Absent (field? v key)) :
    (∃ e, getProp v key = .error e) ∨ getProp v key = .ok .undefined ∨
      getProp v key = .ok .null := by
  rcases h with h | h | h
  · cases v with
    | undefined => exact Or.inl ⟨_, rfl⟩
    | null => exact Or.inl ⟨_, rfl⟩
    | bool b => exact Or.inr (Or.inl rfl)
    | num q => exact Or.inr (Or.inl rfl)
    | str s => right; left; simp [getProp, ownProp, hk1, hk2]
    | arr items => right; left; simp [getProp, ownProp, hk1, hk2]
    | obj fields =>
      right; left
      simp only [field?] at h
      simp [getProp, ownProp, h]
  · exact Or.inr (Or.inr (getProp_of_field h))
  · exact Or.inr (Or.inl (getProp_of_field h))

theorem callTrim_of_not_str {v : JsVal} (h : ∀ t, v ≠ .str t) :
    ∃ e, callTrim v = .error e := by
  cases v with
  | str s => exact absurd rfl (h s)
  | _ => exact ⟨_, rfl⟩

theorem aiSuggestion_of_text {response : JsVal} {t : String} (h : FirstChoiceText response t) :
    aiSuggestion response = .ok (jsTrim t) := by
  obtain ⟨data, choice, rest, message, h1, h2, h3, h4⟩ := h
  simp [aiSuggestion, getProp_of_field h1, getProp_of_field h2, getProp_arr_zero,
    getProp_of_field h3, getProp_of_field h4, callTrim, bind, Except.bind]

theorem aiSuggestion_of_failing {response : JsVal} (h : FailingOutcome (.resolved response)) :
    ∃ e, aiSuggestion response = .error e := by
  have kd : ¬ ("data" = "length") ∧ indexOfKey "data" = none := by decide
  have kc : ¬ ("choices" = "length") ∧ indexOfKey "choices" = none := by decide
  have km : ¬ ("message" = "length") ∧ indexOfKey "message" = none := by decide
  have kt : ¬ ("content" = "length") ∧ indexOfKey "content" = none := by decide
  cases h with
  | noData _ h =>
    rcases getProp_absent kd.1 kd.2 h with ⟨e, he⟩ | he | he <;>
      simp [aiSuggestion, he, getProp_undefined, getProp_null, bind, Except.bind]
  | noChoices _ data hd h =>
    rcases getProp_absent kc.1 kc.2 h with ⟨e, he⟩ | he | he <;>
      simp [aiSuggestion, getProp_of_field hd, he, getProp_undefined, getProp_null, bind,
        Except.bind]
  | emptyChoices _ data hd h =>
    simp [aiSuggestion, getProp_of_field hd, getProp_of_field h, getProp_arr_nil,
      getProp_undefined, bind, Except.bind]
  | noMessage _ data choice rest hd hc h =>
    rcases getProp_absent km.1 km.2 h with ⟨e, he⟩ | he | he <;>
      simp [aiSuggestion, getProp_of_field hd, getProp_of_field hc, getProp_arr_zero, he,
        getProp_undefined, getProp_null, bind, Except.bind]
  | contentNotString _ data choice message rest hd hc hm h =>
    have hcontent : (∃ e, getProp message "content" = .error e) ∨
        ∃ v, getProp message "content" = .ok v ∧ ∀ t, v ≠ .str t := by
      cases hf : field? message "content" with
      | none =>
        rcases getProp_absent kt.1 kt.2 (Or.inl hf) with ⟨e, he⟩ | he | he
        · exact Or.inl ⟨e, he⟩
        · exact Or.inr ⟨_, he, fun t => by simp⟩
        · exact Or.inr ⟨_, he, fun t => by simp⟩
      | some x =>
        refine Or.inr ⟨x, getProp_of_field hf, fun t hx => h t ?_⟩
        rw [hf, hx]
    rcases hcontent with ⟨e, he⟩ | ⟨v, hv, hns⟩
    · simp [aiSuggestion, getProp_of_field hd, getProp_of_field hc, getProp_arr_zero,
        getProp_of_field hm, he, bind, Except.bind]
    · obtain ⟨e, he⟩ := callTrim_of_not_str hns
      simp [aiSuggestion, getProp_of_field hd, getProp_of_field hc, getProp_arr_zero,
        getProp_of_field hm, hv, he, bind, Except.bind]

/-- What `trim` removes and what it keeps. -/
theorem trimChars_spec (cs : List Char) :
    ∃ pre suf, cs = pre ++ trimChars cs ++ suf ∧
      (∀ ch ∈ pre, isJsWhitespace ch = true) ∧ (∀ ch ∈ suf, isJsWhitespace ch = true) ∧
      (∀ ch, (trimChars cs).head? = some ch → isJsWhitespace ch = false) ∧
      (∀ ch, (trimChars cs).getLast? = some ch → isJsWhitespace ch = false) := by
  set l1 := cs.dropWhile isJsWhitespace with hl1
  have e1 : cs = cs.takeWhile isJsWhitespace ++ l1 := (List.takeWhile_append_dropWhile _ _).symm
  have e2 : l1.reverse = l1.reverse.takeWhile isJsWhitespace ++ l1.reverse.dropWhile isJsWhitespace :=
    (List.takeWhile_append_dropWhile _ _).symm
  have e3 : l1 = trimChars cs ++ (l1.reverse.takeWhile isJsWhitespace).reverse := by
    have h := congrArg List.reverse e2
    rw [List.reverse_reverse, List.reverse_append] at h
    exact h
  refine ⟨cs.takeWhile isJsWhitespace, (l1.reverse.takeWhile isJsWhitespace).reverse, ?_, ?_, ?_, ?_, ?_⟩
  · rw [List.append_assoc, ← e3]; exact e1
  · intro ch hch; exact List.mem_takeWhile_imp hch
  · intro ch hch; exact List.mem_takeWhile_imp (List.mem_reverse.mp hch)
  · intro ch hch
    have hne : trimChars cs ≠ [] := by intro h0; rw [h0] at hch; simp at hch
    have hh : l1.head? = some ch := by
      rw [e3, List.head?_append_of_ne_nil _ hne]; exact hch
    have := List.head?_dropWhile_not isJsWhitespace cs
    rw [← hl1, hh] at this
    simpa using this
  · intro ch hch
    have hh : (l1.reverse.dropWhile isJsWhitespace).head? = some ch := by
      simpa [trimChars, hl1] using hch
    have := List.head?_dropWhile_not isJsWhitespace l1.reverse
    rw [hh] at this
    simpa using this

/-! ## Runs of the handlers -/

theorem data_eq (c : Ctx) (w : Run) :
    data c w = (.ok (specReading (c.random w.drawn) (c.random (w.drawn + 1))
      (c.random (w.drawn + 2)) (c.random (w.drawn + 3))), { w with drawn := w.drawn + 4 }) := rfl

theorem sensorData_eq (c : Ctx) (w : Run) :
    sensorData c w = (.ok (specReading (c.random w.drawn) (c.random (w.drawn + 1))
      (c.random (w.drawn + 2)) (c.random (w.drawn + 3))), { w with drawn := w.drawn + 4 }) := rfl

theorem sensorsHandler_eq (c : Ctx) (w : Run) :
    sensorsHandler c w = (.ok (), { w with
      drawn := w.drawn + 4,
      sent := w.sent ++ [{ status := w.statusCode, body := .json (specReading (c.random w.drawn)
        (c.random (w.drawn + 1)) (c.random (w.drawn + 2)) (c.random (w.drawn + 3))).toJs }] }) :=
  rfl

theorem aiSuggestionHandler_eq (c : Ctx) (w : Run) :
    aiSuggestionHandler c w =
      (let d := specReading (c.random w.drawn) (c.random (w.drawn + 1))
          (c.random (w.drawn + 2)) (c.random (w.drawn + 3))
       let request : ChatCompletionRequest :=
        { model := "gpt-3.5-turbo", messages := [{ role := "user", content := prompt d }],
          temperature := fl (7/10) }
       let w1 : Run := { w with drawn := w.drawn + 4, calls := w.calls ++ [request] }
       let fail (e : Thrown) : Except Thrown Unit × Run :=
        (.ok (), { w1 with
          errors := w1.errors ++ [("调用OpenAI出错:", e)],
          statusCode := 500,
          sent := w1.sent ++
            [{ status := 500, body := .json (.obj [("error", .str "AI生成建议失败，请稍后重试")]) }] })
       match c.upstream w.server.configuration request with
       | .rejected reason => fail (.rejection reason)
       | .resolved response =>
         match aiSuggestion response with
         | .error e => fail e
         | .ok text => (.ok (), { w1 with
            sent := w1.sent ++
              [{ status := w1.statusCode, body := .json (.obj [("suggestion", .str text)]) }] })) := by
  simp only [aiSuggestionHandler, tryCatch, tryCatchThe, MonadExcept.tryCatch, bind, sensorData_eq,
    createChatCompletion, liftExcept, resJson, consoleError, resStatus]
  cases h : c.upstream w.server.configuration _ with
  | rejected reason => simp [h]
  | resolved response =>
    cases h2 : aiSuggestion response with
    | error e => simp [h, h2]
    | ok text => simp [h, h2]

/-- The request the suggestion handler sends upstream in surroundings `c`. -/
theorem aiSuggestionHandler_calls (c : Ctx) (s : ServerState) :
    (aiSuggestionHandler.run c s).2.calls =
      [{ model := "gpt-3.5-turbo",
         messages := [{ role := "user", content := prompt (specReading (c.random 0) (c.random 1)
           (c.random 2) (c.random 3)) }],
         temperature := fl (7/10) }] := by
  simp only [Handler.run, aiSuggestionHandler_eq, Run.start]
  split
  · rfl
  · split <;> rfl

/-- The outcome of a run of the suggestion handler, by upstream outcome. -/
theorem aiSuggestionHandler_sent (c : Ctx) (s : ServerState) (o : Outcome)
    (hup : (aiSuggestionHandler.run c s).2.calls.map (c.upstream s.configuration) = [o]) :
    (aiSuggestionHandler.run c s).1 = .ok () ∧
    (aiSuggestionHandler.run c s).2.server = s ∧
    (aiSuggestionHandler.run c s).2.sent =
      match o with
      | .rejected _ =>
        [{ status := 500, body := .json (.obj [("error", .str "AI生成建议失败，请稍后重试")]) }]
      | .resolved response =>
        match aiSuggestion response with
        | .error _ =>
          [{ status := 500, body := .json (.obj [("error", .str "AI生成建议失败，请稍后重试")]) }]
        | .ok text => [{ status := 200, body := .json (.obj [("suggestion", .str text)]) }] := by
  rw [aiSuggestionHandler_calls] at hup
  simp only [List.map_cons, List.map_nil, List.cons.injEq, and_true] at hup
  simp only [Handler.run, aiSuggestionHandler_eq, Run.start, hup]
  cases o with
  | rejected reason => exact ⟨rfl, rfl, rfl⟩
  | resolved response =>
    cases h2 : aiSuggestion response with
    | error e => simp [h2]
    | ok text => simp [h2]

theorem aiSuggestionHandler_server (c : Ctx) (w : Run) :
    (aiSuggestionHandler c w).2.server = w.server := by
  simp only [aiSuggestionHandler_eq]
  split
  · rfl
  · split <;> rfl

/-! ## The limiter and the application -/

theorem limiter_eq (req : Request) (c : Ctx) (w : Run) :
    limiter req c w =
      (let win := req.now / 900000
       let count := hitsIn w.server win req.ip + 1
       let store : LimiterStore :=
        { window := win,
          hits := fun key => if key = req.ip then count else hitsIn w.server win key }
       let w1 : Run := { w with server := { w.server with limiter := store } }
       if 100 < count then
        (.ok false, { w1 with
          statusCode := 429,
          sent := w.sent ++ [{ status := 429, body := .text "请求过于频繁，请稍后再试" }] })
       else (.ok true, w1)) := by
  simp only [limiter, rateLimit, countHit, limiterOptions, hitsIn, bind, resStatus, resSend]
  by_cases hw : w.server.limiter.window = req.now / (15 * 60 * 1000)
  · have hw2 : w.server.limiter.window = req.now / 900000 := hw
    simp only [hw, hw2, if_true]
    split_ifs <;> rfl
  · have hw2 : ¬ w.server.limiter.window = req.now / 900000 := hw
    simp only [hw, hw2, if_false]
    split_ifs <;> rfl

theorem limiter_hits (req : Request) (c : Ctx) (w : Run) (ip : String) :
    hitsIn (limiter req c w).2.server (req.now / 900000) ip =
      hitsIn w.server (req.now / 900000) ip + (if req.ip = ip then 1 else 0) := by
  rw [limiter_eq]
  by_cases hip : req.ip = ip
  · subst hip
    simp only
    split_ifs <;> simp [hitsIn]
  · have hip2 : ¬ ip = req.ip := fun h => hip h.symm
    simp only
    split_ifs <;> simp [hitsIn, hip2]

theorem limiter_frame (req : Request) (c : Ctx) (w : Run) :
    (limiter req c w).2.server.configuration = w.server.configuration ∧
    (limiter req c w).2.server.PORT = w.server.PORT ∧
    (limiter req c w).2.drawn = w.drawn ∧ (limiter req c w).2.calls = w.calls := by
  rw [limiter_eq]
  simp only
  split_ifs <;> exact ⟨rfl, rfl, rfl, rfl⟩

theorem app_rejected (req : Request) (c : Ctx) (w : Run) (h : (limiter req c w).1 = .ok false) :
    app req c w = (.ok (), (limiter req c w).2) := by
  simp only [app, bind]
  rcases hl : limiter req c w with ⟨r, w1⟩
  rw [hl] at h
  simp only at h
  subst h
  rfl

theorem app_passed (req : Request) (c : Ctx) (w : Run) (h : (limiter req c w).1 = .ok true)
    (hfile : c.publicFile req.path = none) :
    app req c w =
      if req.path = "/api/sensors" then sensorsHandler c (limiter req c w).2
      else if req.path = "/api/ai-suggestion" then aiSuggestionHandler c (limiter req c w).2
      else defaultNotFound req c (limiter req c w).2 := by
  simp only [app, bind]
  rcases hl : limiter req c w with ⟨r, w1⟩
  rw [hl] at h
  simp only at h
  subst h
  simp only [expressStatic, hfile, if_true]
  split_ifs <;> rfl

theorem limiter_result (req : Request) (c : Ctx) (w : Run) :
    (limiter req c w).1 = .ok true ∨ (limiter req c w).1 = .ok false := by
  rw [limiter_eq]
  simp only
  split_ifs
  · exact Or.inr rfl
  · exact Or.inl rfl

theorem app_server (req : Request) (c : Ctx) (w : Run) :
    (app req c w).2.server = (limiter req c w).2.server := by
  rcases limiter_result req c w with h | h
  · simp only [app, bind]
    rcases hl : limiter req c w with ⟨r, w1⟩
    rw [hl] at h
    simp only at h
    subst h
    simp only [expressStatic, if_true]
    cases c.publicFile req.path with
    | some content => rfl
    | none =>
      simp only [if_true]
      split_ifs
      · rfl
      · exact aiSuggestionHandler_server c w1
      · rfl
  · rw [app_rejected req c w h]

theorem serveAll_hits (w : ℕ) (ip : String) (before : List (Request × Ctx)) :
    ∀ s : ServerState, (∀ x ∈ before, x.1.now / 900000 = w) →
      hitsIn (serveAll s before) w ip =
        hitsIn s w ip + (before.filter (fun x => x.1.ip = ip)).length := by
  induction before with
  | nil => intro s _; simp [serveAll]
  | cons x rest ih =>
    intro s hw
    obtain ⟨req, c⟩ := x
    have hreq : req.now / 900000 = w := hw (req, c) (List.mem_cons_self _ _)
    have hrest : ∀ y ∈ rest, y.1.now / 900000 = w := fun y hy => hw y (List.mem_cons_of_mem _ hy)
    rw [serveAll, ih _ hrest, Handler.run, app_server, ← hreq, limiter_hits]
    by_cases hip : req.ip = ip
    · simp [hip, List.filter_cons, Run.start]; omega
    · simp [hip, List.filter_cons, Run.start]

theorem serveAll_frame (before : List (Request × Ctx)) :
    ∀ s : ServerState, (serveAll s before).configuration = s.configuration ∧
      (serveAll s before).PORT = s.PORT := by
  induction before with
  | nil => intro s; exact ⟨rfl, rfl⟩
  | cons x rest ih =>
    intro s
    obtain ⟨req, c⟩ := x
    rw [serveAll, Handler.run, app_server]
    have h1 := ih (limiter req c (Run.start s)).2.server
    have h2 := limiter_frame req c (Run.start s)
    exact ⟨h1.1.trans (by simpa [Run.start] using h2.1),
      h1.2.trans (by simpa [Run.start] using h2.2.1)⟩

/-- The digits of the sensor route, for one decimal: `a + fl (r * b)` in
`[a, a + b]` is printed as `n / 10` with `10 a ≤ n ≤ 10 (a + b)`. -/
theorem reading_one_decimal (r : ℚ) (a b : ℕ) (h0 : 0 ≤ r) (h1 : r < 1) (ha : 20 ≤ a)
    (hab : a + b ≤ 60) :
    ∃ n : ℕ, decimalValue (toFixed (fl (a + fl (r * b))) 1) = some ((n:ℚ) / 10) ∧
      (a:ℚ) ≤ (n:ℚ) / 10 ∧ (n:ℚ) / 10 ≤ (a:ℚ) + b ∧
      |(n:ℚ) / 10 - fl (a + fl (r * b))| ≤ 1 / 20 := by
  obtain ⟨hlo, hhi⟩ := scaled_draw_bounds r a b h0 h1 (by omega)
  set x := fl (a + fl (r * b)) with hx
  have hx0 : 0 ≤ x := le_trans (Nat.cast_nonneg a) hlo
  have hb := toFixedN_bounds x 1 (10 * a) (10 * (a + b))
    (by push_cast; linarith) (by push_cast; linarith)
  have hnear := toFixedN_near x 1 hx0
  have hlo2 : (a:ℚ) ≤ (toFixedN x 1 : ℚ) / 10 := by
    rw [le_div_iff₀ (by norm_num)]
    have : ((10 * a : ℕ) : ℚ) ≤ toFixedN x 1 := by exact_mod_cast hb.1
    push_cast at this; linarith
  have hhi2 : (toFixedN x 1 : ℚ) / 10 ≤ (a:ℚ) + b := by
    rw [div_le_iff₀ (by norm_num)]
    have : (toFixedN x 1 : ℚ) ≤ ((10 * (a + b) : ℕ) : ℚ) := by exact_mod_cast hb.2
    push_cast at this; linarith
  refine ⟨toFixedN x 1, ?_, hlo2, hhi2, ?_⟩
  · rw [toFixed_of_nonneg x 1 hx0]
    exact decimalValue_fixed_one _ (by omega) (by omega)
  · have e : (1:ℚ) / (2 * 10 ^ 1) = 1 / 20 := by norm_num
    rw [← e]
    simpa using hnear

/-- The digits of the sensor route, for zero decimals. -/
theorem reading_zero_decimals (r : ℚ) (h0 : 0 ≤ r) (h1 : r < 1) :
    ∃ n : ℕ, decimalValue (toFixed (fl (300 + fl (r * 100))) 0) = some (n:ℚ) ∧
      300 ≤ n ∧ n ≤ 400 ∧ |(n:ℚ) - fl (300 + fl (r * 100))| ≤ 1 / 2 := by
  have hb := scaled_draw_bounds r 300 100 h0 h1 (by norm_num)
  have hlo : (300:ℚ) ≤ fl (300 + fl (r * 100)) := by simpa using hb.1
  have hhi : fl (300 + fl (r * 100)) ≤ 400 := by
    have := hb.2; norm_num at this; exact this
  set x := fl (300 + fl (r * 100)) with hx
  have hx0 : 0 ≤ x := le_trans (by norm_num) hlo
  have hn := toFixedN_bounds x 0 300 400 (by simpa using hlo) (by simpa using hhi)
  have hnear := toFixedN_near x 0 hx0
  refine ⟨toFixedN x 0, ?_, hn.1, hn.2, ?_⟩
  · rw [toFixed_of_nonneg x 0 hx0]
    exact decimalValue_fixed_zero _ (by omega) hn.1
  · simpa using hnear

/-- What the limiter leaves behind when it passes a request on, and when it
answers itself. -/
theorem limiter_run (req : Request) (c : Ctx) (s : ServerState) :
    ∃ srv : ServerState, srv.configuration = s.configuration ∧ srv.PORT = s.PORT ∧
      (hitsIn s (req.now / 900000) req.ip + 1 ≤ 100 →
        limiter req c (Run.start s) = (.ok true, Run.start srv)) ∧
      (100 < hitsIn s (req.now / 900000) req.ip + 1 →
        limiter req c (Run.start s) = (.ok false, { Run.start srv with
          statusCode := 429,
          sent := [{ status := 429, body := .text "请求过于频繁，请稍后再试" }] })) := by
  refine ⟨{ s with limiter :=
    { window := req.now / 900000,
      hits := fun key => if key = req.ip then hitsIn s (req.now / 900000) req.ip + 1
        else hitsIn s (req.now / 900000) key } }, rfl, rfl, ?_, ?_⟩
  · intro h
    rw [limiter_eq]
    simp only [Run.start]
    rw [if_neg (by omega)]
  · intro h
    rw [limiter_eq]
    simp only [Run.start]
    rw [if_pos h]
    rfl

theorem aiSuggestionHandler_congr (c : Ctx) (s1 s2 : ServerState)
    (h : s1.configuration = s2.configuration) :
    (aiSuggestionHandler c (Run.start s1)).2.sent = (aiSuggestionHandler c (Run.start s2)).2.sent ∧
    (aiSuggestionHandler c (Run.start s1)).2.calls =
      (aiSuggestionHandler c (Run.start s2)).2.calls := by
  simp only [aiSuggestionHandler_eq, Run.start, h]
  split
  · exact ⟨rfl, rfl⟩
  · split <;> exact ⟨rfl, rfl⟩

/-- The answer of the application to a request the limiter passes on does not
depend on the counters. -/
theorem app_sent_of_passed (req : Request) (c : Ctx) (s1 s2 : ServerState)
    (hcfg : s1.configuration = s2.configuration)
    (h1 : (limiter req c (Run.start s1)).1 = .ok true)
    (h2 : (limiter req c (Run.start s2)).1 = .ok true) :
    (app req c (Run.start s1)).2.sent = (app req c (Run.start s2)).2.sent := by
  obtain ⟨srv1, hc1, -, hp1, hr1⟩ := limiter_run req c s1
  obtain ⟨srv2, hc2, -, hp2, hr2⟩ := limiter_run req c s2
  have e1 : limiter req c (Run.start s1) = (.ok true, Run.start srv1) := by
    by_cases hle : hitsIn s1 (req.now / 900000) req.ip + 1 ≤ 100
    · exact hp1 hle
    · rw [hr1 (by omega)] at h1; simp at h1
  have e2 : limiter req c (Run.start s2) = (.ok true, Run.start srv2) := by
    by_cases hle : hitsIn s2 (req.now / 900000) req.ip + 1 ≤ 100
    · exact hp2 hle
    · rw [hr2 (by omega)] at h2; simp at h2
  simp only [app, bind, e1, e2, expressStatic, if_true]
  cases c.publicFile req.path with
  | some content => rfl
  | none =>
    simp only [if_true]
    split_ifs
    · rfl
    · exact (aiSuggestionHandler_congr c srv1 srv2 (by rw [hc1, hc2, hcfg])).1
    · rfl

/-- The application calls the upstream API through the suggestion handler
only. -/
theorem app_calls (req : Request) (c : Ctx) (s : ServerState) :
    ((app req).run c s).2.calls = [] ∨
      ((app req).run c s).2.calls = (aiSuggestionHandler.run c s).2.calls := by
  obtain ⟨srv, hc, -, hp, hr⟩ := limiter_run req c s
  by_cases hle : hitsIn s (req.now / 900000) req.ip + 1 ≤ 100
  · have e := hp hle
    simp only [Handler.run, app, bind, e, expressStatic, if_true]
    cases c.publicFile req.path with
    | some content => exact Or.inl rfl
    | none =>
      simp only [if_true]
      split_ifs
      · exact Or.inl rfl
      · exact Or.inr (aiSuggestionHandler_congr c srv s hc).2
      · exact Or.inl rfl
  · have e := hr (by omega)
    left
    rw [Handler.run, app_rejected req c _ (by rw [e]), e]
    rfl

/-! ## The claims -/

/-- C1: when the first choice of the upstream response carries a message with
text content `t`, the suggestion handler completes and answers once, with
status 200 and the body `{suggestion: trim(t)}`; `trim(t)` is `t` without a
leading and a trailing run of whitespace and starts and ends with a
non-whitespace character; the text `Turn off lights when unoccupied.` is
returned as it is. -/
theorem suggestion_success (c : Ctx) (s : ServerState) (response : JsVal) (t : String)
    (hup : (aiSuggestionHandler.run c s).2.calls.map (c.upstream s.configuration) =
      [.resolved response])
    (ht : FirstChoiceText response t) :
    (aiSuggestionHandler.run c s).1 = .ok () ∧
    (aiSuggestionHandler.run c s).2.sent =
      [{ status := 200, body := .json (.obj [("suggestion", .str (jsTrim t))]) }] ∧
    (∃ pre suf, t.data = pre ++ (jsTrim t).data ++ suf ∧
      (∀ ch ∈ pre, isJsWhitespace ch = true) ∧ (∀ ch ∈ suf, isJsWhitespace ch = true) ∧
      (∀ ch, (jsTrim t).data.head? = some ch → isJsWhitespace ch = false) ∧
      (∀ ch, (jsTrim t).data.getLast? = some ch → isJsWhitespace ch = false)) ∧
    jsTrim "Turn off lights when unoccupied." = "Turn off lights when unoccupied." := by
  have h := aiSuggestionHandler_sent c s _ hup
  simp only [aiSuggestion_of_text ht] at h
  exact ⟨h.1, h.2.2, trimChars_spec t.data, by decide⟩

/-- A response with whitespace around its text is answered with the trimmed text. -/
theorem suggestion_success_witness :
    FirstChoiceText lightsResponse "  Turn off lights when unoccupied.\n" ∧
    (aiSuggestionHandler.run (ctxOf (1/2) (.resolved lightsResponse)) idle).2.sent =
      [{ status := 200, body := .json (.obj [("suggestion",
          .str (jsTrim "  Turn off lights when unoccupied.\n"))]) }] ∧
    jsTrim "  Turn off lights when unoccupied.\n" = "Turn off lights when unoccupied." :=
  ⟨⟨_, _, _, _, rfl, rfl, rfl, rfl⟩,
   (suggestion_success (ctxOf (1/2) (.resolved lightsResponse)) idle lightsResponse
      "  Turn off lights when unoccupied.\n" rfl ⟨_, _, _, _, rfl, rfl, rfl, rfl⟩).2.1,
   by decide⟩

/-- C2: on every failing upstream outcome (a rejection, or a payload with no
data, no choices, an empty choices list, a first choice without message, or a
message whose content is not a string) the suggestion handler completes and
answers once, with status 500, never 200, and a JSON body with an `error`
field. -/
theorem suggestion_failure (c : Ctx) (s : ServerState) (o : Outcome)
    (hup : (aiSuggestionHandler.run c s).2.calls.map (c.upstream s.configuration) = [o])
    (hf : FailingOutcome o) :
    (aiSuggestionHandler.run c s).1 = .ok () ∧
    ∃ r, (aiSuggestionHandler.run c s).2.sent = [r] ∧ r.status = 500 ∧ r.status ≠ 200 ∧
      ∃ fields message, r.body = .json (.obj fields) ∧
        fields.lookup "error" = some (.str message) := by
  have h := aiSuggestionHandler_sent c s _ hup
  refine ⟨h.1, ?_⟩
  cases o with
  | rejected reason =>
    exact ⟨_, h.2.2, rfl, by decide, _, _, rfl, rfl⟩
  | resolved response =>
    obtain ⟨e, he⟩ := aiSuggestion_of_failing hf
    simp only [he] at h
    exact ⟨_, h.2.2, rfl, by decide, _, _, rfl, rfl⟩

/-- A response with an empty list of choices is answered with status 500. -/
theorem suggestion_failure_witness :
    FailingOutcome (.resolved emptyResponse) ∧
    ∃ r, (aiSuggestionHandler.run (ctxOf (1/2) (.resolved emptyResponse)) idle).2.sent = [r] ∧
      r.status = 500 ∧ r.status ≠ 200 ∧
      ∃ fields message, r.body = .json (.obj fields) ∧
        fields.lookup "error" = some (.str message) :=
  ⟨.emptyChoices _ _ rfl rfl,
   (suggestion_failure (ctxOf (1/2) (.resolved emptyResponse)) idle (.resolved emptyResponse) rfl
      (.emptyChoices _ _ rfl rfl)).2⟩

/-- C3: any two failing runs of the suggestion handler (the upstream call
rejects or resolves with a malformed payload, that is, one of the failing
outcomes of C2 or any other on which the try block throws) send the same
response whatever the upstream errors, payloads, draws and server states are:
status 500 with the fixed message. -/
theorem failure_response_constant (c1 c2 : Ctx) (s1 s2 : ServerState) (o1 o2 : Outcome)
    (hup1 : (aiSuggestionHandler.run c1 s1).2.calls.map (c1.upstream s1.configuration) = [o1])
    (hup2 : (aiSuggestionHandler.run c2 s2).2.calls.map (c2.upstream s2.configuration) = [o2])
    (hf1 : FailingOutcome o1 ∨ TryThrows o1) (hf2 : FailingOutcome o2 ∨ TryThrows o2) :
    (aiSuggestionHandler.run c1 s1).2.sent = (aiSuggestionHandler.run c2 s2).2.sent ∧
    (aiSuggestionHandler.run c1 s1).2.sent =
      [{ status := 500, body := .json (.obj [("error", .str "AI生成建议失败，请稍后重试")]) }] := by
  have key : ∀ (c : Ctx) (s : ServerState) (o : Outcome),
      (aiSuggestionHandler.run c s).2.calls.map (c.upstream s.configuration) = [o] →
      FailingOutcome o ∨ TryThrows o →
      (aiSuggestionHandler.run c s).2.sent =
        [{ status := 500, body := .json (.obj [("error", .str "AI生成建议失败，请稍后重试")]) }] := by
    intro c s o hup hf
    have h := (aiSuggestionHandler_sent c s _ hup).2.2
    cases o with
    | rejected reason => exact h
    | resolved response =>
      have hthrows : ∃ e, aiSuggestion response = .error e := by
        rcases hf with hf | hf
        · exact aiSuggestion_of_failing hf
        · exact hf
      obtain ⟨e, he⟩ := hthrows
      simp only [he] at h
      exact h
  rw [key c1 s1 o1 hup1 hf1, key c2 s2 o2 hup2 hf2]
  exact ⟨rfl, rfl⟩

/-- A rejected call and an empty list of choices, with different draws and
server states, are answered alike. -/
theorem failure_response_constant_witness :
    (aiSuggestionHandler.run (ctxOf (1/4) (.rejected (.str "ECONNRESET"))) idle).2.sent =
      (aiSuggestionHandler.run (ctxOf (3/4) (.resolved emptyResponse))
        (startup fun _ => some "8080")).2.sent :=
  (failure_response_constant (ctxOf (1/4) (.rejected (.str "ECONNRESET")))
    (ctxOf (3/4) (.resolved emptyResponse)) idle (startup fun _ => some "8080")
    (.rejected (.str "ECONNRESET")) (.resolved emptyResponse) rfl rfl
    (Or.inl (.rejects _)) (Or.inl (.emptyChoices _ _ rfl rfl))).1

/-- C4 (as amended): for draws in `[0, 1)` the sensor route answers with a
temperature that is a one-decimal number in the closed range `[20.0, 25.0]`, a
humidity that is a one-decimal number in `[40.0, 60.0]` and a light that is an
integer in `[300, 400]`; each is the Number `20 + 5r`, `40 + 20r`,
`300 + 100r` rounded to one, one and zero decimals (half a unit of the last
digit at most away from it). -/
theorem sensors_ranges (c : Ctx) (s : ServerState)
    (h : ∀ i, 0 ≤ c.random i ∧ c.random i < 1) :
    ∃ (t hm l p : String) (nt nh nl : ℕ),
      (sensorsHandler.run c s).2.sent =
        [{ status := 200, body := .json (.obj [("temperature", .str t), ("humidity", .str hm),
            ("light", .str l), ("humanDetect", .str p)]) }] ∧
      decimalValue t = some ((nt:ℚ) / 10) ∧ 20 ≤ (nt:ℚ) / 10 ∧ (nt:ℚ) / 10 ≤ 25 ∧
      |(nt:ℚ) / 10 - jsAdd 20 (jsMul (c.random 0) 5)| ≤ 1 / 20 ∧
      decimalValue hm = some ((nh:ℚ) / 10) ∧ 40 ≤ (nh:ℚ) / 10 ∧ (nh:ℚ) / 10 ≤ 60 ∧
      |(nh:ℚ) / 10 - jsAdd 40 (jsMul (c.random 1) 20)| ≤ 1 / 20 ∧
      decimalValue l = some (nl:ℚ) ∧ 300 ≤ nl ∧ nl ≤ 400 ∧
      |(nl:ℚ) - jsAdd 300 (jsMul (c.random 2) 100)| ≤ 1 / 2 := by
  obtain ⟨nt, ht1, ht2, ht3, ht4⟩ :=
    reading_one_decimal (c.random 0) 20 5 (h 0).1 (h 0).2 (by norm_num) (by norm_num)
  obtain ⟨nh, hh1, hh2, hh3, hh4⟩ :=
    reading_one_decimal (c.random 1) 40 20 (h 1).1 (h 1).2 (by norm_num) (by norm_num)
  obtain ⟨nl, hl1, hl2, hl3, hl4⟩ := reading_zero_decimals (c.random 2) (h 2).1 (h 2).2
  norm_num at ht1 ht2 ht3 ht4 hh1 hh2 hh3 hh4
  refine ⟨(specReading (c.random 0) (c.random 1) (c.random 2) (c.random 3)).temperature,
    (specReading (c.random 0) (c.random 1) (c.random 2) (c.random 3)).humidity,
    (specReading (c.random 0) (c.random 1) (c.random 2) (c.random 3)).light,
    (specReading (c.random 0) (c.random 1) (c.random 2) (c.random 3)).humanDetect,
    nt, nh, nl, rfl, ?_, ht2, ht3, ?_, ?_, hh2, hh3, ?_, hl1, hl2, hl3, hl4⟩
  · simpa [specReading] using ht1
  · simpa [jsAdd, jsMul] using ht4
  · simpa [specReading] using hh1
  · simpa [jsAdd, jsMul] using hh4

/-- The ranges at the draw one half. -/
theorem sensors_ranges_witness :
    (∀ i : ℕ, 0 ≤ (ctxOf (1/2) (.rejected .null)).random i ∧
      (ctxOf (1/2) (.rejected .null)).random i < 1) ∧
    ∃ (t hm l p : String) (nt nh nl : ℕ),
      (sensorsHandler.run (ctxOf (1/2) (.rejected .null)) idle).2.sent =
        [{ status := 200, body := .json (.obj [("temperature", .str t), ("humidity", .str hm),
            ("light", .str l), ("humanDetect", .str p)]) }] ∧
      decimalValue t = some ((nt:ℚ) / 10) ∧ 20 ≤ (nt:ℚ) / 10 ∧ (nt:ℚ) / 10 ≤ 25 ∧
      |(nt:ℚ) / 10 - jsAdd 20 (jsMul ((ctxOf (1/2) (.rejected .null)).random 0) 5)| ≤ 1 / 20 ∧
      decimalValue hm = some ((nh:ℚ) / 10) ∧ 40 ≤ (nh:ℚ) / 10 ∧ (nh:ℚ) / 10 ≤ 60 ∧
      |(nh:ℚ) / 10 - jsAdd 40 (jsMul ((ctxOf (1/2) (.rejected .null)).random 1) 20)| ≤ 1 / 20 ∧
      decimalValue l = some (nl:ℚ) ∧ 300 ≤ nl ∧ nl ≤ 400 ∧
      |(nl:ℚ) - jsAdd 300 (jsMul ((ctxOf (1/2) (.rejected .null)).random 2) 100)| ≤ 1 / 2 :=
  ⟨fun _ => ⟨by norm_num [ctxOf], by norm_num [ctxOf]⟩,
   sensors_ranges (ctxOf (1/2) (.rejected .null)) idle
    (fun _ => ⟨by norm_num [ctxOf], by norm_num [ctxOf]⟩)⟩

/-- C4 (as stated) fails: with every draw equal to `1023/1024`, a value of
`[0, 1)`, the Numbers formatted are `24.9951171875`, `59.98046875` and
`399.90234375` (no rounding occurs in the sums and products) and the sensor
route answers temperature `25.0`, humidity `60.0` and light `400`; the numbers
these strings denote are the upper bounds 25, 60 and 400, which the claim
excludes. -/
theorem sensors_upper_bounds_reached :
    (0:ℚ) ≤ 1023/1024 ∧ (1023/1024 : ℚ) < 1 ∧
    jsAdd 20 (jsMul (1023/1024) 5) = 25595/1024 ∧
    jsAdd 40 (jsMul (1023/1024) 20) = 15355/256 ∧
    jsAdd 300 (jsMul (1023/1024) 100) = 102375/256 ∧
    (sensorsHandler.run (ctxOf (1023/1024) (.rejected .null)) idle).2.sent =
      [{ status := 200, body := .json (.obj [("temperature", .str "25.0"),
          ("humidity", .str "60.0"), ("light", .str "400"), ("humanDetect", .str "有人")]) }] ∧
    decimalValue "25.0" = some 25 ∧ decimalValue "60.0" = some 60 ∧
    decimalValue "400" = some 400 ∧
    ¬ ((25:ℚ) < 25) ∧ ¬ ((60:ℚ) < 60) ∧ ¬ ((400:ℚ) < 400) := by
  have hr : specReading (1023/1024) (1023/1024) (1023/1024) (1023/1024) =
      { temperature := "25.0", humidity := "60.0", light := "400", humanDetect := "有人" } := by
    decide!
  refine ⟨by norm_num, by norm_num, by decide!, by decide!, by decide!, ?_, by decide!,
    by decide!, by decide!, by norm_num, by norm_num, by norm_num⟩
  simp only [Handler.run, sensorsHandler_eq, Run.start, ctxOf, hr, SensorData.toJs,
    List.nil_append]

/-- C5: with the limiter configured as a fixed window of 15 minutes and a cap
of 100, consider the requests of one window and a client with no earlier hit in
it.  The client's request number `n` (counted among the requests served before
it in the window) is passed on by the limiter when `n ≤ 100`, and then the
routes answer it; when `n > 100`, hence for request number 101, the limiter
answers with the fixed rejection message and no handler runs (no draw, no
upstream call). -/
theorem limiter_window (s : ServerState) (before : List (Request × Ctx)) (req : Request)
    (c : Ctx) (w : ℕ)
    (hw : ∀ x ∈ before, x.1.now / limiterOptions.windowMs = w)
    (hreq : req.now / limiterOptions.windowMs = w)
    (hfresh : hitsIn s w req.ip = 0) :
    limiterOptions.windowMs = 15 * 60 * 1000 ∧ limiterOptions.max = 100 ∧
    ((before.filter (fun x => x.1.ip = req.ip)).length + 1 ≤ 100 →
      ((limiter req).run c (serveAll s before)).1 = .ok true ∧
      ((limiter req).run c (serveAll s before)).2.sent = [] ∧
      (c.publicFile req.path = none → req.path = "/api/sensors" →
        ((app req).run c (serveAll s before)).2.sent =
          (sensorsHandler.run c (serveAll s before)).2.sent) ∧
      (c.publicFile req.path = none → req.path = "/api/ai-suggestion" →
        ((app req).run c (serveAll s before)).2.sent =
          (aiSuggestionHandler.run c (serveAll s before)).2.sent)) ∧
    (100 < (before.filter (fun x => x.1.ip = req.ip)).length + 1 →
      ((limiter req).run c (serveAll s before)).1 = .ok false ∧
      ((app req).run c (serveAll s before)).2.sent =
        [{ status := 429, body := .text "请求过于频繁，请稍后再试" }] ∧
      ((app req).run c (serveAll s before)).2.drawn = 0 ∧
      ((app req).run c (serveAll s before)).2.calls = []) := by
  have hwin : limiterOptions.windowMs = 900000 := rfl
  rw [hwin] at hw hreq
  have hcount := serveAll_hits w req.ip before s hw
  rw [hfresh, zero_add] at hcount
  obtain ⟨srv, hc, -, hp, hr⟩ := limiter_run req c (serveAll s before)
  rw [hreq, hcount] at hp hr
  refine ⟨rfl, rfl, ?_, ?_⟩
  · intro hn
    have e := hp hn
    refine ⟨by rw [Handler.run, e], by rw [Handler.run, e]; rfl, ?_, ?_⟩
    · intro hfile hpath
      rw [Handler.run, app_passed req c _ (by rw [e]) hfile, if_pos hpath, e]
      rfl
    · intro hfile hpath
      have hne : ¬ (req.path = "/api/sensors") := by rw [hpath]; decide
      rw [Handler.run, app_passed req c _ (by rw [e]) hfile, if_neg hne, if_pos hpath, e]
      exact (aiSuggestionHandler_congr c srv (serveAll s before) hc).1
  · intro hn
    have e := hr hn
    refine ⟨by rw [Handler.run, e], ?_, ?_, ?_⟩ <;>
      rw [Handler.run, app_rejected req c _ (by rw [e]), e] <;> rfl

/-- After 99 requests of one client in a window the client's next request is
passed on and answered by the sensor route; after 100 it is rejected. -/
theorem limiter_window_witness :
    (((limiter (sensorsRequest 1100)).run (ctxOf (1/2) (.rejected .null))
      (serveAll idle (List.replicate 99 (sensorsRequest 1000, ctxOf (1/2) (.rejected .null))))).1 =
        .ok true ∧
     ((app (sensorsRequest 1100)).run (ctxOf (1/2) (.rejected .null))
      (serveAll idle (List.replicate 99 (sensorsRequest 1000, ctxOf (1/2) (.rejected .null))))).2.sent =
        (sensorsHandler.run (ctxOf (1/2) (.rejected .null))
          (serveAll idle
            (List.replicate 99 (sensorsRequest 1000, ctxOf (1/2) (.rejected .null))))).2.sent) ∧
    (((limiter (sensorsRequest 1100)).run (ctxOf (1/2) (.rejected .null))
      (serveAll idle (List.replicate 100 (sensorsRequest 1000, ctxOf (1/2) (.rejected .null))))).1 =
        .ok false ∧
     ((app (sensorsRequest 1100)).run (ctxOf (1/2) (.rejected .null))
      (serveAll idle (List.replicate 100 (sensorsRequest 1000, ctxOf (1/2) (.rejected .null))))).2.sent =
        [{ status := 429, body := .text "请求过于频繁，请稍后再试" }]) :=
  have h99 := (limiter_window idle
    (List.replicate 99 (sensorsRequest 1000, ctxOf (1/2) (.rejected .null)))
    (sensorsRequest 1100) (ctxOf (1/2) (.rejected .null)) 0
    (fun x hx => by rw [List.eq_of_mem_replicate hx]; rfl) rfl rfl).2.2.1
    (by simp [sensorsRequest])
  have h100 := (limiter_window idle
    (List.replicate 100 (sensorsRequest 1000, ctxOf (1/2) (.rejected .null)))
    (sensorsRequest 1100) (ctxOf (1/2) (.rejected .null)) 0
    (fun x hx => by rw [List.eq_of_mem_replicate hx]; rfl) rfl rfl).2.2.2
    (by simp [sensorsRequest])
  ⟨⟨h99.1, h99.2.2.1 rfl rfl⟩, ⟨h100.1, h100.2.1⟩⟩

/-- C6: for every reading the prompt is the fixed template with the four
fields substituted at its four labelled places, in the order temperature,
humidity, light, humanDetect, each once; the five fixed texts around the places
do not depend on the reading. -/
theorem prompt_fills_template (d : SensorData) :
    prompt d = fillTemplate d promptTemplate ∧
    places promptTemplate = [.temperature, .humidity, .light, .humanDetect] ∧
    prompt d =
      "\n    你是一个智能教室节能顾问。当前教室传感器数据如下：\n    - 温度: " ++ d.temperature ++
      " °C\n    - 湿度: " ++ d.humidity ++
      " %\n    - 光照强度: " ++ d.light ++
      " lux\n    - 是否有人: " ++ d.humanDetect ++
      "\n\n    请根据以上数据，从节能角度给出几条具体建议，帮助减少能源浪费，并保持教室舒适度。建议要简洁易懂。\n    " := by
  refine ⟨?_, rfl, rfl⟩
  simp only [prompt, fillTemplate, promptTemplate, Place.value, toString, String.append_assoc,
    String.append_empty]

/-- C7: every run of the suggestion handler, whatever the upstream does, calls
the upstream API exactly once, with the model `gpt-3.5-turbo`, the sampling
temperature `0.7` (the Number nearest to 7/10) and a single message of role
`user` whose content is the prompt of the reading generated in that run; the
application makes that one call or, when the request does not reach the
handler, none. -/
theorem upstream_called_once (c : Ctx) (s : ServerState) :
    ∃ d : SensorData, (sensorData.run c s).1 = .ok d ∧
      (aiSuggestionHandler.run c s).2.calls =
        [{ model := "gpt-3.5-turbo",
           messages := [{ role := "user", content := prompt d }],
           temperature := fl (7/10) }] ∧
      (aiSuggestionHandler.run c s).2.calls.length = 1 ∧
      (aiSuggestionHandler.run c s).2.drawn = 4 ∧
      |fl (7/10) - 7/10| ≤ 1 / 2 ^ 54 ∧
      ∀ req : Request, ((app req).run c s).2.calls = [] ∨
        ((app req).run c s).2.calls =
          [{ model := "gpt-3.5-turbo",
             messages := [{ role := "user", content := prompt d }],
             temperature := fl (7/10) }] := by
  refine ⟨_, rfl, aiSuggestionHandler_calls c s, ?_, ?_, by decide!, ?_⟩
  · rw [aiSuggestionHandler_calls]; rfl
  · simp only [Handler.run, aiSuggestionHandler_eq, Run.start]
    split
    · rfl
    · split <;> rfl
  · intro req
    have h := app_calls req c s
    rw [aiSuggestionHandler_calls] at h
    exact h

/-- C8: the `humanDetect` of every answer of the sensor route is one of the two
labels: `有人` exactly when the fourth draw is above 0.5 and `无人` otherwise;
each label is produced by some draw of `[0, 1)`. -/
theorem humanDetect_label (c : Ctx) (s : ServerState) :
    (∃ t h l p, (sensorsHandler.run c s).2.sent =
        [{ status := 200, body := .json (.obj [("temperature", .str t), ("humidity", .str h),
            ("light", .str l), ("humanDetect", .str p)]) }] ∧
      (p = "有人" ∨ p = "无人") ∧
      (p = "有人" ↔ c.random 3 > 1/2) ∧ (p = "无人" ↔ ¬ c.random 3 > 1/2)) ∧
    (∃ r : ℚ, 0 ≤ r ∧ r < 1 ∧ ∃ t h l, (sensorsHandler.run (ctxOf r (.rejected .null)) s).2.sent =
        [{ status := 200, body := .json (.obj [("temperature", .str t), ("humidity", .str h),
            ("light", .str l), ("humanDetect", .str "有人")]) }]) ∧
    (∃ r : ℚ, 0 ≤ r ∧ r < 1 ∧ ∃ t h l, (sensorsHandler.run (ctxOf r (.rejected .null)) s).2.sent =
        [{ status := 200, body := .json (.obj [("temperature", .str t), ("humidity", .str h),
            ("light", .str l), ("humanDetect", .str "无人")]) }]) := by
  have hne : ¬ ("有人" = "无人") := by decide
  have hne2 : ¬ ("无人" = "有人") := by decide
  refine ⟨⟨(specReading (c.random 0) (c.random 1) (c.random 2) (c.random 3)).temperature,
      (specReading (c.random 0) (c.random 1) (c.random 2) (c.random 3)).humidity,
      (specReading (c.random 0) (c.random 1) (c.random 2) (c.random 3)).light,
      (specReading (c.random 0) (c.random 1) (c.random 2) (c.random 3)).humanDetect,
      rfl, ?_, ?_, ?_⟩,
    ⟨3/4, by norm_num, by norm_num, (specReading (3/4) (3/4) (3/4) (3/4)).temperature,
      (specReading (3/4) (3/4) (3/4) (3/4)).humidity, (specReading (3/4) (3/4) (3/4) (3/4)).light,
      ?_⟩,
    ⟨1/4, by norm_num, by norm_num, (specReading (1/4) (1/4) (1/4) (1/4)).temperature,
      (specReading (1/4) (1/4) (1/4) (1/4)).humidity, (specReading (1/4) (1/4) (1/4) (1/4)).light,
      ?_⟩⟩
  · simp only [specReading]; split_ifs <;> simp
  · simp only [specReading]
    split_ifs with h
    · exact ⟨fun _ => h, fun _ => rfl⟩
    · exact ⟨fun e => absurd e hne2, fun h1 => absurd h1 h⟩
  · simp only [specReading]
    split_ifs with h
    · exact ⟨fun e => absurd e hne, fun h1 => absurd h h1⟩
    · exact ⟨fun _ => h, fun _ => rfl⟩
  · have h : (3/4 : ℚ) > 1/2 := by norm_num
    simp only [Handler.run, sensorsHandler_eq, Run.start, SensorData.toJs, specReading, ctxOf,
      if_pos h, List.nil_append]
  · have h : ¬ (1/4 : ℚ) > 1/2 := by norm_num
    simp only [Handler.run, sensorsHandler_eq, Run.start, SensorData.toJs, specReading, ctxOf,
      if_neg h, List.nil_append]

/-- C9: with the server state explicit (limiter counters, configuration,
port), a run of either GET handler returns the server state it started from;
the application changes nothing but the limiter counters; the answer of the
sensor handler is determined by the draws and that of the suggestion handler by
the upstream outcome, whatever the server state; and the answer to a request
the limiter passes on is the same after any two histories of requests. -/
theorem handlers_frame (c c2 : Ctx) (s s2 : ServerState) (req : Request)
    (before before2 : List (Request × Ctx))
    (hdraws : ∀ i, i < 4 → c2.random i = c.random i)
    (hout : (aiSuggestionHandler.run c2 s2).2.calls.map (c2.upstream s2.configuration) =
      (aiSuggestionHandler.run c s).2.calls.map (c.upstream s.configuration))
    (hpass : ((limiter req).run c (serveAll s before)).1 = .ok true)
    (hpass2 : ((limiter req).run c (serveAll s before2)).1 = .ok true) :
    (sensorsHandler.run c s).2.server = s ∧
    (aiSuggestionHandler.run c s).2.server = s ∧
    ((app req).run c s).2.server.configuration = s.configuration ∧
    ((app req).run c s).2.server.PORT = s.PORT ∧
    (serveAll s before).configuration = s.configuration ∧
    (serveAll s before).PORT = s.PORT ∧
    (sensorsHandler.run c2 s2).2.sent = (sensorsHandler.run c s).2.sent ∧
    (aiSuggestionHandler.run c2 s2).2.sent = (aiSuggestionHandler.run c s).2.sent ∧
    ((app req).run c (serveAll s before2)).2.sent =
      ((app req).run c (serveAll s before)).2.sent := by
  have hframe := limiter_frame req c (Run.start s)
  refine ⟨rfl, aiSuggestionHandler_server c (Run.start s), ?_, ?_, (serveAll_frame before s).1,
    (serveAll_frame before s).2, ?_, ?_, ?_⟩
  · rw [Handler.run, app_server]; exact hframe.1
  · rw [Handler.run, app_server]; exact hframe.2.1
  · simp only [Handler.run, sensorsHandler_eq, Run.start, Nat.zero_add]
    rw [hdraws 0 (by norm_num), hdraws 1 (by norm_num), hdraws 2 (by norm_num),
      hdraws 3 (by norm_num)]
  · obtain ⟨o, ho⟩ : ∃ o, (aiSuggestionHandler.run c s).2.calls.map
        (c.upstream s.configuration) = [o] := by
      rw [aiSuggestionHandler_calls]; exact ⟨_, rfl⟩
    rw [(aiSuggestionHandler_sent c s o ho).2.2,
      (aiSuggestionHandler_sent c2 s2 o (hout.trans ho)).2.2]
    cases o <;> rfl
  · exact app_sent_of_passed req c _ _
      (by rw [(serveAll_frame before2 s).1, (serveAll_frame before s).1]) hpass2 hpass

/-- The sensor route answers the same after an earlier request as after none. -/
theorem handlers_frame_witness :
    ((app (sensorsRequest 2000)).run (ctxOf (1/4) (.resolved lightsResponse))
      (serveAll idle [(sensorsRequest 1000, ctxOf (3/4) (.rejected .null))])).2.sent =
    ((app (sensorsRequest 2000)).run (ctxOf (1/4) (.resolved lightsResponse))
      (serveAll idle [])).2.sent :=
  (handlers_frame (ctxOf (1/4) (.resolved lightsResponse)) (ctxOf (1/4) (.resolved lightsResponse))
    idle (startup fun _ => some "8080") (sensorsRequest 2000) []
    [(sensorsRequest 1000, ctxOf (3/4) (.rejected .null))]
    (fun _ _ => rfl) rfl rfl rfl).2.2.2.2.2.2.2.2

/-- C10: the reading block of the sensor route and the reading block of the
suggestion handler are the same function of the four draws: run on the same
draws, both complete with the same four strings (the reading of the
specification), the sensor route answers with that reading and the suggestion
handler interpolates that reading into the prompt it sends. -/
theorem readings_agree (c : Ctx) (s : ServerState) :
    data = sensorData ∧
    ∃ d : SensorData,
      d = specReading (c.random 0) (c.random 1) (c.random 2) (c.random 3) ∧
      (data.run c s).1 = .ok d ∧ (sensorData.run c s).1 = .ok d ∧
      (data.run c s).2.drawn = 4 ∧ (sensorData.run c s).2.drawn = 4 ∧
      (sensorsHandler.run c s).2.sent =
        [{ status := 200, body := .json (.obj [("temperature", .str d.temperature),
            ("humidity", .str d.humidity), ("light", .str d.light),
            ("humanDetect", .str d.humanDetect)]) }] ∧
      (aiSuggestionHandler.run c s).2.calls.map (fun request =>
        request.messages.map fun m => m.content) = [[prompt d]] := by
  refine ⟨rfl, _, rfl, rfl, rfl, rfl, rfl, rfl, ?_⟩
  rw [aiSuggestionHandler_calls]
  rfl

end SmartClassroom
